import Mathlib

/-!
Verification of the Terminal State Classification & Completion Arbitration
Engine of the ClaudeOnTheBeach repository.

The Python source is embedded shallowly:

* machine text is `String`, times and confidences are `ℚ`,
* Python dictionaries holding the classifier reply become the `StatusInfo`
  structure,
* stateful detector objects become explicit state records threaded through
  the functions,
* Python substring tests (`needle in hay`, after `.lower()`) become
  `strContains`/`lowerStr` below.

External collaborators (the vision backend, the screenshot provider, difflib
sequence matching) enter as parameters, never as stubs of the logic under
verification.
-/

/-- Python `text.lower()`: character-wise lowercasing. -/
def lowerStr (s : String) : String :=
  ⟨s.data.map Char.toLower⟩

/-- Python `needle in hay`: substring containment. -/
def strContains (hay needle : String) : Bool :=
  decide (needle.data <:+: hay.data)

/-- A list infix survives mapping a function over both lists. -/
theorem map_preserves_substring {l₁ l₂ : List Char} (f : Char → Char)
    (h : l₁ <:+: l₂) : l₁.map f <:+: l₂.map f := by
  obtain ⟨s, t, rfl⟩ := h
  exact ⟨s.map f, t.map f, by simp⟩

/-- Containment transfers along a longer contained string. -/
theorem strContains_of_longer {hay a b : String}
    (hab : a.data <:+: b.data) (hb : strContains hay b = true) :
    strContains hay a = true := by
  have h2 : b.data <:+: hay.data := of_decide_eq_true hb
  exact decide_eq_true (hab.trans h2)

/-- Lowercasing both sides preserves containment. -/
theorem strContains_lower {hay needle : String}
    (h : strContains hay needle = true) :
    strContains (lowerStr hay) (lowerStr needle) = true := by
  have h2 : needle.data <:+: hay.data := of_decide_eq_true h
  exact decide_eq_true (map_preserves_substring Char.toLower h2)

/-! ## Configuration constants (src/client/config.py) -/

/-- Config.STATUS_WORDS. -/
def STATUS_WORDS : List String :=
  ["grooving", "swooping", "caramelizing", "bewitching", "fermenting", "imagining"]

/-- Config.RUNNING_INDICATORS. -/
def RUNNING_INDICATORS : List String :=
  ["running", "running the tests", "+ running"]

/-- Config.ESC_INTERRUPT_PATTERN. -/
def ESC_INTERRUPT_PATTERN : String := "(esc to interrupt)"

/-- Config.COMPLETION_INDICATORS (model switching / limit reached). -/
def COMPLETION_INDICATORS : List String :=
  ["claude opus limit reached", "now using sonnet", "model limit reached",
   "switching to", "falling back to", "using sonnet", "using opus",
   "model change", "limit reached"]

/-- Config.TASK_COMPLETION_PATTERNS as an association list. -/
def TASK_COMPLETION_PATTERNS : List (String × List String) :=
  [("test", ["all tests pass", "test passed", "pytest passed", "✓", "PASSED"]),
   ("script", ["done", "finished", "complete", "script completed", "execution finished"]),
   ("file", ["file created", "file saved", "write complete", "saved successfully"]),
   ("install", ["installation complete", "installed successfully", "setup complete"]),
   ("build", ["build complete", "compilation finished", "build successful"]),
   ("run", ["execution complete", "program finished", "process completed"])]

/-- Config.STRONG_COMPLETION_INDICATORS. -/
def STRONG_COMPLETION_INDICATORS : List String :=
  ["✅", "✓", "PASSED", "SUCCESS", "COMPLETE", "DONE", "FINISHED",
   "all tests pass", "installation complete", "build successful",
   "script completed", "execution finished", "process completed"]

/-- Config.WEAK_COMPLETION_INDICATORS. -/
def WEAK_COMPLETION_INDICATORS : List String :=
  ["ready", "available", "prepared", "configured", "set up",
   "waiting for input", "prompt", ">", "command line"]

/-- Config.QUESTION_SIMILARITY_THRESHOLD. -/
def QUESTION_SIMILARITY_THRESHOLD : ℚ := 3/4

/-- Config.QUESTION_CONTEXT_WINDOW (deque maxlen). -/
def QUESTION_CONTEXT_WINDOW : Nat := 5

/-- Config.STATIC_SCREEN_TIMEOUT (seconds). -/
def STATIC_SCREEN_TIMEOUT : ℚ := 30

/-- Config.COMPLETION_CONFIRMATION_DELAY (seconds). -/
def COMPLETION_CONFIRMATION_DELAY : ℚ := 3

/-- Config.MAX_WAIT_TIMEOUT (hard monitoring timeout, seconds). -/
def MAX_WAIT_TIMEOUT : ℚ := 300

/-! ## StatusReport (the parsed classifier reply dictionary) -/

/-- The analysis dictionary produced by the classifier:
keys status, needs_input, is_complete, question, screenshots_match. -/
structure StatusInfo where
  status : String
  needs_input : Bool
  is_complete : Bool
  question : Option String
  screenshots_match : Bool
deriving DecidableEq, Repr

/-! ## LLMAnalyzer (src/client/utils/llm_analyzer.py) -/

/-- `LLMAnalyzer._fallback_analysis`. -/
def fallback_analysis : StatusInfo :=
  { status := "Status unknown (no API)", needs_input := false,
    is_complete := true, question := none, screenshots_match := true }

/-- Outcome of one backend round trip, as seen by the analyzer: either no
client is configured, or the API call / JSON extraction / required-key
check failed (every such failure raises and is caught by the same
`except` clause), or a fully parsed reply is available. -/
inductive BackendOutcome where
  | noClient
  | parseFailure
  | parsed (si : StatusInfo)
deriving DecidableEq, Repr

/-- `LLMAnalyzer.analyze_screenshot_with_llm`, with the backend round trip
and JSON parsing abstracted into a `BackendOutcome`: no configured client
returns `_fallback_analysis()`; any exception (network failure, JSON
extraction failure, missing required key) is caught and also returns
`_fallback_analysis()`; a parsed reply is returned as-is. -/
def analyze_screenshot_with_llm : BackendOutcome → StatusInfo
  | BackendOutcome.noClient => fallback_analysis
  | BackendOutcome.parseFailure => fallback_analysis
  | BackendOutcome.parsed si => si

/-- The sibling implementation `TerminalClaudeWrapper.analyze_screenshot_with_llm`
(src/client/claudeOnTheBeach.py, lines 2027-2229): same structure, but its
`except` clause returns a conservative non-complete report. -/
def wrapper_analyze_screenshot_with_llm : BackendOutcome → StatusInfo
  | BackendOutcome.noClient =>
      { status := "Status unknown (no API)", needs_input := false,
        is_complete := true, question := none, screenshots_match := true }
  | BackendOutcome.parseFailure =>
      { status := "Processing...", needs_input := false,
        is_complete := false, question := none, screenshots_match := true }
  | BackendOutcome.parsed si => si

/-- `LLMAnalyzer.validate_completion_status`: deterministic override rules
applied to the classifier reply.  Only the `status` field is inspected. -/
def validate_completion_status (si : StatusInfo) : StatusInfo :=
  let status_lower := lowerStr si.status
  if COMPLETION_INDICATORS.any (fun c => strContains status_lower c) then
    { si with is_complete := true,
              status := "Task completed (model switch detected)" }
  else if si.is_complete then
    if strContains status_lower ESC_INTERRUPT_PATTERN then
      { si with is_complete := false, status := "Still processing" }
    else if STATUS_WORDS.any (fun w => strContains status_lower w) then
      { si with is_complete := false, status := "Still processing" }
    else if RUNNING_INDICATORS.any (fun r => strContains status_lower r) then
      { si with is_complete := false, status := "Still processing" }
    else si
  else si

/-! ## CompletionDetector (src/client/utils/completion_detector.py) -/

/-- Mutable fields of `CompletionDetector` read or written by
`analyze_completion`. -/
structure CompletionState where
  completion_start_time : Option ℚ
  static_screen_start : Option ℚ
  task_type : Option String
deriving DecidableEq, Repr

/-- Fresh `CompletionDetector` state (`__init__` / `reset`). -/
def completionInit : CompletionState :=
  { completion_start_time := none, static_screen_start := none, task_type := none }

/-- The dictionary returned by `analyze_completion`. -/
structure CompletionResult where
  is_complete : Bool
  confidence : ℚ
  method : String
  indicators : List String
  reasoning : List String
deriving DecidableEq, Repr

/-- `CompletionDetector._extract_text_from_screenshot`: the source returns
the empty string for every screenshot (placeholder for OCR). -/
def extract_text_from_screenshot (_screenshot : List Nat) : String := ""

/-- `CompletionDetector._check_strong_completion_indicators`. -/
def check_strong_completion_indicators (text : String) : List String :=
  STRONG_COMPLETION_INDICATORS.filter
    (fun ind => strContains (lowerStr text) (lowerStr ind))

/-- `CompletionDetector._check_task_specific_completion`. -/
def check_task_specific_completion (text : String) (task_type : String) : List String :=
  match (TASK_COMPLETION_PATTERNS.lookup task_type) with
  | none => []
  | some pats => pats.filter (fun p => strContains (lowerStr text) (lowerStr p))

/-- `CompletionDetector._check_weak_completion_indicators`. -/
def check_weak_completion_indicators (text : String) : List String :=
  WEAK_COMPLETION_INDICATORS.filter
    (fun ind => strContains (lowerStr text) (lowerStr ind))

/-- The dictionary returned by `CompletionDetector._validate_llm_completion`. -/
structure LlmValidation where
  valid : Bool
  indicators : List String
  reason : String
deriving DecidableEq, Repr

/-- `CompletionDetector._validate_llm_completion`: contradicting
active-indicator scan over the extracted text. -/
def validate_llm_completion (text : String) (si : StatusInfo) : LlmValidation :=
  if si.is_complete then
    let active :=
      STATUS_WORDS.filter (fun w => strContains (lowerStr text) (lowerStr w)) ++
      RUNNING_INDICATORS.filter (fun r => strContains (lowerStr text) (lowerStr r)) ++
      (if strContains (lowerStr text) (lowerStr ESC_INTERRUPT_PATTERN) then
        [ESC_INTERRUPT_PATTERN] else [])
    if active ≠ [] then
      { valid := false, indicators := active,
        reason := "LLM marked complete but found active indicators" }
    else
      { valid := true, indicators := check_weak_completion_indicators text,
        reason := "LLM completion validated with weak indicators" }
  else
    { valid := false, indicators := [], reason := "LLM did not mark as complete" }

/-- `CompletionDetector._confirm_weak_completion`: dwell confirmation with
its state update (first sighting records the timestamp and answers false). -/
def confirm_weak_completion (st : CompletionState) (now : ℚ) :
    Bool × CompletionState :=
  match st.completion_start_time with
  | none => (false, { st with completion_start_time := some now })
  | some t0 => (decide (now - t0 ≥ COMPLETION_CONFIRMATION_DELAY), st)

/-- `CompletionDetector._check_static_screen_completion`: the source returns
the constant not-complete placeholder. -/
def check_static_screen_completion (_st : CompletionState) (_now : ℚ) : Bool × ℚ :=
  (false, 0)

/-- Body of `CompletionDetector.analyze_completion` after the screenshot has
been converted to text: the five detection methods tried in source order,
with early return on the first hit. -/
def analyze_completion_text (text : String) (si : StatusInfo)
    (_command : Option String) (task_type : Option String)
    (st : CompletionState) (now : ℚ) : CompletionResult × CompletionState :=
  let strong := check_strong_completion_indicators text
  if strong ≠ [] then
    ({ is_complete := true, confidence := 95/100, method := "strong_indicators",
       indicators := strong,
       reasoning := ["Found strong completion indicators"] }, st)
  else
    let taskHit : Option (List String) :=
      match task_type with
      | none => none
      | some tt =>
        if tt ≠ "" ∧ (TASK_COMPLETION_PATTERNS.lookup tt).isSome then
          let found := check_task_specific_completion text tt
          if found ≠ [] then some found else none
        else none
    match taskHit with
    | some found =>
      ({ is_complete := true, confidence := 85/100, method := "task_specific",
         indicators := found,
         reasoning := ["Found task-specific completion"] }, st)
    | none =>
      let llmHit : Option (List String) :=
        if si.is_complete then
          let v := validate_llm_completion text si
          if v.valid then some v.indicators else none
        else none
      match llmHit with
      | some inds =>
        ({ is_complete := true, confidence := 80/100, method := "llm_validated",
           indicators := inds,
           reasoning := ["LLM completion validated"] }, st)
      | none =>
        let weak := check_weak_completion_indicators text
        let confirmed :=
          if weak ≠ [] then confirm_weak_completion st now else (false, st)
        if weak ≠ [] ∧ confirmed.1 then
          ({ is_complete := true, confidence := 70/100, method := "weak_indicators",
             indicators := weak,
             reasoning := ["Confirmed weak completion indicators"] }, confirmed.2)
        else
          let staticRes := check_static_screen_completion confirmed.2 now
          if staticRes.1 then
            ({ is_complete := true, confidence := 60/100, method := "static_screen",
               indicators := ["static_screen"],
               reasoning := ["Static screen"] }, confirmed.2)
          else
            ({ is_complete := false, confidence := 0, method := "none",
               indicators := [], reasoning := [] }, confirmed.2)

/-- `CompletionDetector.analyze_completion`: converts the screenshot to text
(always the empty string in the source) and runs the five-method analysis. -/
def analyze_completion (screenshot : List Nat) (si : StatusInfo)
    (command : Option String) (task_type : Option String)
    (st : CompletionState) (now : ℚ) : CompletionResult × CompletionState :=
  analyze_completion_text (extract_text_from_screenshot screenshot)
    si command task_type st now

/-! ## StaticScreenDetector (src/client/utils/static_screen_detector.py) -/

/-- Mutable fields of `StaticScreenDetector`. -/
structure SSDState where
  last_screenshot_hash : Option String
  last_change_time : Option ℚ
  static_start_time : Option ℚ
  is_static : Bool
deriving DecidableEq, Repr

/-- Fresh `StaticScreenDetector` state (`__init__` / `reset`). -/
def ssdInit : SSDState :=
  { last_screenshot_hash := none, last_change_time := none,
    static_start_time := none, is_static := false }

/-- The dictionary `update_screenshot` returns. -/
structure SSDResult where
  is_static : Bool
  static_duration : ℚ
  should_complete : Bool
  last_change_time : Option ℚ
deriving DecidableEq, Repr

/-- `StaticScreenDetector.update_screenshot`, taking the already-computed
content hash of the screenshot (the MD5 step is an external, injective-in-
intent digest of the raw bytes) and the current wall-clock time. -/
def update_screenshot (st : SSDState) (currentHash : String) (now : ℚ) :
    SSDResult × SSDState :=
  if some currentHash ≠ st.last_screenshot_hash then
    let st' : SSDState :=
      { last_screenshot_hash := some currentHash, last_change_time := some now,
        static_start_time := none, is_static := false }
    ({ is_static := false, static_duration := 0, should_complete := false,
       last_change_time := some now }, st')
  else
    let start := st.static_start_time.getD now
    let st' : SSDState :=
      if st.static_start_time = none then
        { st with static_start_time := some now, is_static := true }
      else st
    let dur := now - start
    ({ is_static := true, static_duration := dur,
       should_complete := decide (dur ≥ STATIC_SCREEN_TIMEOUT),
       last_change_time := st.last_change_time }, st')

/-! ## QuestionDetector (src/client/utils/question_detector.py)

The combined text-similarity score (`_calculate_question_similarity`:
difflib sequence ratio, word/pattern/concept Jaccard measures mixed
0.3/0.3/0.2/0.2) is threaded through as an abstract parameter `calcSim`;
every theorem below holds for all values of it, and none of the frozen
claims constrains its value. -/

/-- An entry of `question_history`. -/
structure QuestionRecord where
  question : String
  confidence : ℚ
  qtype : String
  timestamp : ℚ
deriving DecidableEq, Repr

/-- Mutable fields of `QuestionDetector`. -/
structure QDState where
  last_question_sent : String
  question_history : List QuestionRecord
  question_timestamps : List ℚ
  last_question_time : ℚ
deriving DecidableEq, Repr

/-- Fresh `QuestionDetector` state (`__init__`). -/
def qdInit : QDState :=
  { last_question_sent := "", question_history := [],
    question_timestamps := [], last_question_time := 0 }

/-- `collections.deque(maxlen = cap)` append: drop from the left when full. -/
def pushBounded (cap : Nat) (l : List α) (x : α) : List α :=
  let l' := l ++ [x]
  if cap < l'.length then l'.drop (l'.length - cap) else l'

/-- `QuestionDetector.is_same_question`: empty-text guard, normalisation
(strip + lower), exact-match short circuit, then the combined similarity
against `QUESTION_SIMILARITY_THRESHOLD`. -/
def is_same_question (calcSim : String → String → ℚ × String)
    (current_question previous_question : String) : Bool × ℚ × String :=
  if current_question = "" ∨ previous_question = "" then
    (false, 0, "empty_question")
  else
    let current_q := lowerStr current_question.trim
    let last_q := lowerStr previous_question.trim
    if current_q = last_q then
      (true, 1, "exact_match")
    else
      let sim := calcSim current_q last_q
      (decide (sim.1 ≥ QUESTION_SIMILARITY_THRESHOLD), sim.1, sim.2)

/-- `QuestionDetector.is_recent_question`. -/
def is_recent_question (calcSim : String → String → ℚ × String)
    (st : QDState) (now : ℚ) (question : String) (time_window : ℚ) : Bool :=
  st.question_history.any (fun q =>
    decide (now - q.timestamp ≤ time_window) &&
    (is_same_question calcSim question q.question).1)

/-- `QuestionDetector.should_send_question_notification`. -/
def should_send_question_notification
    (calcSim : String → String → ℚ × String)
    (st : QDState) (now : ℚ) (question : String) (confidence : ℚ) : Bool :=
  if confidence ≥ 85/100 then
    true
  else if is_recent_question calcSim st now question 30 then
    false
  else if confidence ≥ 70/100 then
    ! is_recent_question calcSim st now question 10
  else
    ! is_recent_question calcSim st now question 5

/-- `QuestionDetector.update_last_question`. -/
def update_last_question (st : QDState) (now : ℚ) (question : String)
    (confidence : ℚ) (qtype : String) : QDState :=
  { last_question_sent := question,
    last_question_time := now,
    question_history :=
      pushBounded QUESTION_CONTEXT_WINDOW st.question_history
        { question := question, confidence := confidence,
          qtype := qtype, timestamp := now },
    question_timestamps :=
      pushBounded QUESTION_CONTEXT_WINDOW st.question_timestamps now }

/-- `QuestionDetector.clear_last_question`. -/
def clear_last_question (_st : QDState) : QDState :=
  { last_question_sent := "", question_history := [],
    question_timestamps := [], last_question_time := 0 }

/-! ## Monitoring loop (TerminalClaudeWrapper.smart_monitor_process,
src/client/claudeOnTheBeach.py, lines 2266-2475)

Two views of the loop are embedded.  `monitor_decision` is the full
per-sample decision pipeline of lines 2326-2366 (static-detector update,
task classification, completion arbitration, the status overwrite, the
override validation and the send condition), used to settle the end-to-end
override claims.  `monitor_step`/`monitor_run` model the loop mechanics
(pause, timeout, capture failure, single completion send, break), with the
classification pipeline's verdict supplied as tick input, used to settle
the at-most-one-completion claim. -/

/-- What one pass of lines 2326-2366 computes for a captured sample. -/
structure DecisionOut where
  sent_completion : Bool
  status_final : StatusInfo
  completion_state : CompletionState
  ssd_state : SSDState
deriving Repr

/-- The completion-decision pipeline for one captured dual sample:
given the task classifier (a collaborator mapping command text to a task
type), the command, the raw classifier reply, the screenshot hash and the
detector states, compute the static update, the completion arbitration on
the extracted screenshot text (always empty in the source), the status
overwrite on a positive arbitration, the override validation, and whether
a completion notification is sent this tick. -/
def monitor_decision (classify : String → String) (command : String)
    (si_raw : StatusInfo) (screenshotHash : String)
    (cst : CompletionState) (sst : SSDState) (now : ℚ)
    (paused process_complete completion_sent : Bool) : DecisionOut :=
  let ssd := update_screenshot sst screenshotHash now
  let cst0 :=
    if ssd.1.is_static then
      { cst with static_screen_start :=
          match cst.static_screen_start with
          | none => some now
          | some t => some t }
    else { cst with static_screen_start := none }
  let tt := classify command
  let cst1 := { cst0 with task_type := some tt }
  let ca := analyze_completion [] si_raw (some command) (some tt) cst1 now
  let si1 :=
    if ca.1.is_complete then
      { si_raw with is_complete := true,
                    status := "Task completed (" ++ ca.1.method ++ ")" }
    else si_raw
  if si1.is_complete then
    let si2 := validate_completion_status si1
    let send := !process_complete && !paused && !completion_sent
    { sent_completion := send, status_final := si2,
      completion_state := ca.2, ssd_state := ssd.2 }
  else
    { sent_completion := false, status_final := si1,
      completion_state := ca.2, ssd_state := ssd.2 }

/-- Input of one tick of the monitoring loop, with the capture/classify/
arbitrate pipeline's outcome abstracted: `verdict_complete` is the final
`status_info.is_complete` of lines 2342-2352, `is_question` the outcome of
`question_detector.is_question`. -/
structure TickInput where
  paused : Bool
  elapsed : ℚ
  checks : Bool
  captured : Bool
  verdict_complete : Bool
  is_question : Bool
  question_text : String
  confidence : ℚ
  qtype : String
  now : ℚ
deriving Repr

/-- Loop-level state of one `MonitorSession`. -/
structure LoopState where
  process_complete : Bool
  completion_sent : Bool
  waiting_for_input : Bool
  last_was_waiting : Bool
  qd : QDState
deriving Repr

/-- Session state right after `start_monitoring_task` reset the completion
flag and detectors for a new command. -/
def freshSession (qd : QDState) : LoopState :=
  { process_complete := false, completion_sent := false,
    waiting_for_input := false, last_was_waiting := false, qd := qd }

/-- One iteration of the `while not process_complete` loop body: returns
the new state, whether a completion notification was emitted this tick,
and whether the loop exits (`break`).  Mirrors the source's order: pause
check, hard timeout, cadence check, capture check, then the
completion-priority branch, else the question branch. -/
def monitor_step (calcSim : String → String → ℚ × String)
    (st : LoopState) (i : TickInput) : LoopState × Bool × Bool :=
  if i.paused then (st, false, false)
  else if MAX_WAIT_TIMEOUT < i.elapsed then (st, false, true)
  else if !i.checks then (st, false, false)
  else if !i.captured then (st, false, false)
  else if i.verdict_complete then
    if !st.process_complete && !i.paused && !st.completion_sent then
      ({ process_complete := true, completion_sent := true,
         waiting_for_input := false, last_was_waiting := false,
         qd := clear_last_question st.qd }, true, true)
    else (st, false, false)
  else if i.is_question then
    let same := (is_same_question calcSim i.question_text st.qd.last_question_sent).1
    let sendQ := !same && !i.paused &&
      should_send_question_notification calcSim st.qd i.now i.question_text i.confidence
    if sendQ then
      ({ st with
          qd := update_last_question st.qd i.now i.question_text i.confidence i.qtype,
          waiting_for_input := true, last_was_waiting := true }, false, false)
    else
      ({ st with waiting_for_input := true, last_was_waiting := true }, false, false)
  else (st, false, false)

/-- Number of completion notifications emitted by running the loop over a
sequence of tick inputs, stopping on `break` or when the loop condition
`not process_complete` fails. -/
def monitor_run (calcSim : String → String → ℚ × String) :
    LoopState → List TickInput → Nat
  | _, [] => 0
  | st, i :: rest =>
    if st.process_complete then 0
    else
      let r := monitor_step calcSim st i
      (if r.2.1 then 1 else 0) +
        (if r.2.2 then 0 else monitor_run calcSim r.1 rest)

/-! ## Spec-side ordered arbiter (spec §4.5, for the refinement claim) -/

/-- The completion arbiter exactly as the specification words it: five
methods in strict priority order with fixed confidences, first match wins,
otherwise not complete with confidence 0 and method none.  The verdict is
the triple (is_complete, confidence, method). -/
def arbiterOrderedSpec (text : String) (si : StatusInfo)
    (task_type : Option String) (st : CompletionState) (now : ℚ) :
    Bool × ℚ × String :=
  let taskCond : Bool :=
    match task_type with
    | some tt => tt ≠ "" && (TASK_COMPLETION_PATTERNS.lookup tt).isSome &&
        check_task_specific_completion text tt ≠ []
    | none => false
  let dwellCond : Bool :=
    match st.completion_start_time with
    | none => false
    | some t0 => now - t0 ≥ COMPLETION_CONFIRMATION_DELAY
  if check_strong_completion_indicators text ≠ [] then
    (true, 95/100, "strong_indicators")
  else if taskCond then
    (true, 85/100, "task_specific")
  else if si.is_complete && (validate_llm_completion text si).valid then
    (true, 80/100, "llm_validated")
  else if check_weak_completion_indicators text ≠ [] && dwellCond then
    (true, 70/100, "weak_indicators")
  else if (check_static_screen_completion st now).1 then
    (true, 60/100, "static_screen")
  else
    (false, 0, "none")

/-! ## Shared concrete instantiations -/

/-- A concrete combined-similarity oracle used for concrete evaluations:
reports every pair of distinct normalised texts as fully dissimilar. -/
def calcSimZero : String → String → ℚ × String :=
  fun _ _ => (0, "different_questions")

/-! ## Claim C1 -/

/-- Claim C1 is violated by `LLMAnalyzer.analyze_screenshot_with_llm`: with a
configured backend whose raw reply fails JSON extraction (or lacks a
required key), the caught exception returns `_fallback_analysis()` with
`is_complete = true`, not the conservative processing report the claim
describes; the sibling implementation
`TerminalClaudeWrapper.analyze_screenshot_with_llm` (the intent the claim
records) does return the conservative non-complete report. -/
theorem analyze_parse_failure_not_conservative :
    (analyze_screenshot_with_llm BackendOutcome.parseFailure).is_complete = true ∧
    analyze_screenshot_with_llm BackendOutcome.parseFailure = fallback_analysis ∧
    (wrapper_analyze_screenshot_with_llm BackendOutcome.parseFailure).is_complete
      = false ∧
    (wrapper_analyze_screenshot_with_llm BackendOutcome.parseFailure).status
      = "Processing..." :=
  ⟨rfl, rfl, rfl, rfl⟩

/-! ## Claim C2 -/

/-- Claim C2 as stated is false: after recording the question
"Do you want to proceed? (y/n)" at confidence 0.9, the call three seconds
later with the identical text and confidence 0.9 returns `true`, not
`false`, because confidences at or above 0.85 short-circuit every
recency check. -/
theorem should_send_repeat_high_conf_cex :
    should_send_question_notification calcSimZero
      (update_last_question qdInit 0 "Do you want to proceed? (y/n)" (9/10) "unknown")
      3 "Do you want to proceed? (y/n)" (9/10) = true := by
  unfold should_send_question_notification
  rw [if_pos (by norm_num)]

/-- Claim C2 (amended): a call to `should_send_question_notification` at
confidence 0.9 returns `true` in every detector state, at any time, for
any question text and any similarity oracle — high-confidence questions
bypass the duplicate-recency windows entirely. -/
theorem should_send_high_confidence_always
    (calcSim : String → String → ℚ × String)
    (st : QDState) (now : ℚ) (question : String) :
    should_send_question_notification calcSim st now question (9/10) = true := by
  unfold should_send_question_notification
  rw [if_pos (by norm_num)]

/-! ## Claim C5 -/

/-- Claim C5 as stated is false: a report whose `question` text contains the
limit-reached phrase while the summary does not is returned unchanged with
`is_complete = false`, though the claim requires the model-switch override
to force `is_complete = true` whenever the summary/question text contains
such a phrase. -/
theorem validate_ignores_question_field_cex :
    strContains
      (lowerStr ((StatusInfo.question
        { status := "working", needs_input := true, is_complete := false,
          question := some "claude opus limit reached",
          screenshots_match := true }).getD ""))
      "limit reached" = true ∧
    (validate_completion_status
        { status := "working", needs_input := true, is_complete := false,
          question := some "claude opus limit reached",
          screenshots_match := true }).is_complete = false := by
  constructor
  · decide
  · decide

/-- Claim C5 (amended): `validate_completion_status` consults only the
summary (`status`) text: (1) if the status text contains any model-switch /
limit-reached phrase the result has `is_complete = true` regardless of the
prior verdict; (2) otherwise, if the report has `is_complete = true` but
the status text contains the interrupt marker, a known status word or a
known running phrase, the result has `is_complete = false`. -/
theorem validate_completion_status_spec (si : StatusInfo) :
    ((∃ c ∈ COMPLETION_INDICATORS, strContains (lowerStr si.status) c = true) →
      (validate_completion_status si).is_complete = true) ∧
    ((¬ ∃ c ∈ COMPLETION_INDICATORS, strContains (lowerStr si.status) c = true) →
      si.is_complete = true →
      (strContains (lowerStr si.status) ESC_INTERRUPT_PATTERN = true ∨
       (∃ w ∈ STATUS_WORDS, strContains (lowerStr si.status) w = true) ∨
       (∃ r ∈ RUNNING_INDICATORS, strContains (lowerStr si.status) r = true)) →
      (validate_completion_status si).is_complete = false) := by
  constructor
  · intro h
    have hany : (COMPLETION_INDICATORS.any
        fun c => strContains (lowerStr si.status) c) = true := by
      rw [List.any_eq_true]; simpa using h
    simp [validate_completion_status, hany]
  · intro hno hic hdis
    have hany : (COMPLETION_INDICATORS.any
        fun c => strContains (lowerStr si.status) c) = false := by
      rw [Bool.eq_false_iff]
      intro hcon
      exact hno (by simpa using List.any_eq_true.mp hcon)
    simp only [validate_completion_status, hany, Bool.false_eq_true,
      if_false, hic, if_true]
    split_ifs with h1 h2 h3
    · rfl
    · rfl
    · rfl
    · exfalso
      rcases hdis with hesc | hw | hr
      · exact h1 hesc
      · exact h2 (List.any_eq_true.mpr (by simpa using hw))
      · exact h3 (List.any_eq_true.mpr (by simpa using hr))

/-- Concrete application of the amended C5: a status text consisting of the
limit-reached phrase forces completion, and a complete verdict over a
status text carrying the interrupt marker is flipped to not complete. -/
theorem validate_completion_status_spec_witness :
    (validate_completion_status
      { status := "Claude Opus limit reached", needs_input := false,
        is_complete := false, question := none,
        screenshots_match := true }).is_complete = true ∧
    (validate_completion_status
      { status := "Installing packages... (esc to interrupt)",
        needs_input := false, is_complete := true, question := none,
        screenshots_match := false }).is_complete = false :=
  ⟨(validate_completion_status_spec _).1 ⟨"limit reached", by decide, by decide⟩,
   (validate_completion_status_spec _).2 (by decide) rfl (Or.inl (by decide))⟩

/-! ## Claim C7 -/

/-- Claim C7 as stated is false at the empty string: `is_same_question`
answers `(false, 0, empty_question)` on two empty texts, not
`(true, 1, exact_match)`. -/
theorem is_same_question_empty_cex :
    is_same_question calcSimZero "" "" = (false, 0, "empty_question") ∧
    is_same_question calcSimZero "" "" ≠ (true, 1, "exact_match") := by
  constructor
  · rfl
  · decide

/-- Claim C7 (amended): for every nonempty text `q` and every similarity
oracle, `is_same_question q q = (true, 1.0, exact_match)`. -/
theorem is_same_question_refl (calcSim : String → String → ℚ × String)
    (q : String) (hq : q ≠ "") :
    is_same_question calcSim q q = (true, 1, "exact_match") := by
  unfold is_same_question
  rw [if_neg (by simp [hq]), if_pos rfl]

/-- Concrete application of the amended C7. -/
theorem is_same_question_refl_witness :
    is_same_question calcSimZero "Do you want to proceed? (y/n)"
      "Do you want to proceed? (y/n)" = (true, 1, "exact_match") :=
  is_same_question_refl calcSimZero _ (by decide)

/-! ## Claim C8 -/

/-- Claim C8: on every `update_screenshot` call, a hash differing from the
stored one (including the first-ever sample, whose stored hash is absent)
yields `is_static = false`, `static_duration = 0`, `should_complete =
false` and resets the accumulated static start; an identical hash yields
`is_static = true` with `should_complete = true` exactly when the returned
accumulated static duration reaches `STATIC_SCREEN_TIMEOUT`. -/
theorem update_screenshot_spec (st : SSDState) (h : String) (now : ℚ) :
    (some h ≠ st.last_screenshot_hash →
      (update_screenshot st h now).1 =
        { is_static := false, static_duration := 0, should_complete := false,
          last_change_time := some now } ∧
      (update_screenshot st h now).2.static_start_time = none) ∧
    (st.last_screenshot_hash = some h →
      (update_screenshot st h now).1.is_static = true ∧
      ((update_screenshot st h now).1.should_complete = true ↔
        (update_screenshot st h now).1.static_duration ≥ STATIC_SCREEN_TIMEOUT)) := by
  constructor
  · intro hne
    rw [update_screenshot, if_pos hne]
    exact ⟨rfl, rfl⟩
  · intro heq
    have hnn : ¬ some h ≠ st.last_screenshot_hash := by simp [heq]
    rw [update_screenshot, if_neg hnn]
    exact ⟨rfl, by simp⟩

/-- Concrete application of C8: the first sample counts as a change, and an
identical resample 30 seconds into a static stretch crosses the timeout. -/
theorem update_screenshot_spec_witness :
    ((update_screenshot ssdInit "h0" 0).1 =
      { is_static := false, static_duration := 0, should_complete := false,
        last_change_time := some 0 } ∧
     (update_screenshot ssdInit "h0" 0).2.static_start_time = none) ∧
    ((update_screenshot
        { last_screenshot_hash := some "h0", last_change_time := some 0,
          static_start_time := some 1, is_static := true } "h0" 31).1.is_static
       = true ∧
     ((update_screenshot
        { last_screenshot_hash := some "h0", last_change_time := some 0,
          static_start_time := some 1, is_static := true } "h0" 31).1.should_complete
        = true ↔
      (update_screenshot
        { last_screenshot_hash := some "h0", last_change_time := some 0,
          static_start_time := some 1, is_static := true } "h0" 31).1.static_duration
        ≥ STATIC_SCREEN_TIMEOUT)) :=
  ⟨(update_screenshot_spec ssdInit "h0" 0).1 (by decide),
   (update_screenshot_spec _ "h0" 31).2 rfl⟩

/-! ## Claim C6 -/

/-- Every string of `STRONG_COMPLETION_INDICATORS` contained in the lowered
text keeps `_check_strong_completion_indicators` nonempty. -/
theorem check_strong_ne_nil_of_mem {text ind : String}
    (hmem : ind ∈ STRONG_COMPLETION_INDICATORS)
    (hc : strContains (lowerStr text) (lowerStr ind) = true) :
    check_strong_completion_indicators text ≠ [] := by
  intro hnil
  have : ind ∈ check_strong_completion_indicators text :=
    List.mem_filter.mpr ⟨hmem, hc⟩
  rw [hnil] at this
  exact absurd this (List.not_mem_nil ind)

/-- Claim C6: whenever the text signal handed to the completion analysis
contains the strong indicator "✅ all tests pass" — even together with the
running phrase "+ Running the tests…" — the result is complete with method
strong_indicators at confidence 0.95: strong indicators win over any
contradicting active signal. -/
theorem strong_indicators_win (text : String) (si : StatusInfo)
    (command task_type : Option String) (st : CompletionState) (now : ℚ)
    (h1 : strContains text "✅ all tests pass" = true)
    (_h2 : strContains text "+ Running the tests…" = true) :
    ((analyze_completion_text text si command task_type st now).1.is_complete
       = true) ∧
    ((analyze_completion_text text si command task_type st now).1.confidence
       = 95/100) ∧
    ((analyze_completion_text text si command task_type st now).1.method
       = "strong_indicators") := by
  have hcheck : strContains text "✅" = true :=
    strContains_of_longer (by decide) h1
  have hlow : strContains (lowerStr text) (lowerStr "✅") = true :=
    strContains_lower hcheck
  have hne : check_strong_completion_indicators text ≠ [] :=
    check_strong_ne_nil_of_mem (by decide) hlow
  simp only [analyze_completion_text.eq_def]
  rw [if_pos hne]
  exact ⟨rfl, rfl, rfl⟩

/-- Concrete application of C6 on a terminal text carrying both the strong
indicator and the running phrase. -/
theorem strong_indicators_win_witness :
    ((analyze_completion_text
        "+ Running the tests… ✅ all tests pass"
        fallback_analysis none (some "test") completionInit 0).1.is_complete
       = true) ∧
    ((analyze_completion_text
        "+ Running the tests… ✅ all tests pass"
        fallback_analysis none (some "test") completionInit 0).1.confidence
       = 95/100) ∧
    ((analyze_completion_text
        "+ Running the tests… ✅ all tests pass"
        fallback_analysis none (some "test") completionInit 0).1.method
       = "strong_indicators") :=
  strong_indicators_win _ _ _ _ _ _ (by decide) (by decide)

/-! ## Claim C10 -/

/-- A value delivered by `List.lookup` is one of the stored values. -/
theorem lookup_mem_snd {α β : Type} [BEq α] :
    ∀ (l : List (α × β)) (k : α) (b : β),
      List.lookup k l = some b → b ∈ l.map Prod.snd := by
  intro l
  induction l with
  | nil => intro k b h; simp [List.lookup] at h
  | cons p t ih =>
    intro k b h
    rw [List.lookup] at h
    cases hk : (k == p.1) with
    | true =>
      rw [hk] at h
      injection h with h
      simp [h]
    | false =>
      rw [hk] at h
      simpa using Or.inr (ih k b h)

/-- The empty extracted text matches no task-specific completion pattern,
whatever the task type. -/
theorem check_task_specific_completion_empty (tt : String) :
    check_task_specific_completion "" tt = [] := by
  unfold check_task_specific_completion
  cases h : TASK_COMPLETION_PATTERNS.lookup tt with
  | none => rfl
  | some pats =>
    have hmem := lookup_mem_snd TASK_COMPLETION_PATTERNS tt pats h
    simp only [TASK_COMPLETION_PATTERNS, List.map, List.mem_cons,
      List.not_mem_nil, or_false] at hmem
    rcases hmem with rfl | rfl | rfl | rfl | rfl | rfl <;> decide

/-- Claim C10: because the screenshot-to-text extraction always yields the
empty string and the internal static check always answers not-complete,
`analyze_completion` degenerates: the result is the llm_validated verdict
(confidence 0.80, empty indicator list) exactly when the supplied report
has `is_complete` set, and the method-none non-complete verdict otherwise;
the detector state is returned unchanged either way. -/
theorem analyze_completion_degenerate (screenshot : List Nat) (si : StatusInfo)
    (command task_type : Option String) (st : CompletionState) (now : ℚ) :
    analyze_completion screenshot si command task_type st now =
      (if si.is_complete then
        ({ is_complete := true, confidence := 80/100, method := "llm_validated",
           indicators := [],
           reasoning := ["LLM completion validated"] }, st)
       else
        ({ is_complete := false, confidence := 0, method := "none",
           indicators := [], reasoning := [] }, st)) := by
  have hstrong : check_strong_completion_indicators "" = [] := by decide
  have hweak : check_weak_completion_indicators "" = [] := by decide
  obtain ⟨status, ni, ic, q, sm⟩ := si
  unfold analyze_completion extract_text_from_screenshot
  cases ic with
  | true =>
    have hval : validate_llm_completion ""
        { status := status, needs_input := ni, is_complete := true,
          question := q, screenshots_match := sm } =
        { valid := true, indicators := [],
          reason := "LLM completion validated with weak indicators" } := by
      unfold validate_llm_completion
      rfl
    cases task_type with
    | none =>
      simp [analyze_completion_text.eq_def, hstrong, hval]
    | some tt =>
      simp [analyze_completion_text.eq_def, hstrong, hval,
        check_task_specific_completion_empty tt]
  | false =>
    cases task_type with
    | none =>
      simp [analyze_completion_text.eq_def, hstrong, hweak,
        check_static_screen_completion]
    | some tt =>
      simp [analyze_completion_text.eq_def, hstrong, hweak,
        check_static_screen_completion,
        check_task_specific_completion_empty tt]

/-! ## Claim C3 -/

/-- Claim C3: `analyze_completion` tries its five methods in the strict
order strong_indicators (0.95), task_specific (0.85), llm_validated
(0.80), weak_indicators with dwell confirmation (0.70), static_screen
(0.60); the first matching method decides the verdict, and with no match
the verdict is not-complete at confidence 0 with method none.  The
embedding is a total function, so no input raises. -/
theorem analyze_completion_text_ordered (text : String) (si : StatusInfo)
    (command task_type : Option String) (st : CompletionState) (now : ℚ) :
    ((analyze_completion_text text si command task_type st now).1.is_complete,
     (analyze_completion_text text si command task_type st now).1.confidence,
     (analyze_completion_text text si command task_type st now).1.method) =
      arbiterOrderedSpec text si task_type st now := by
  unfold arbiterOrderedSpec
  simp only [analyze_completion_text.eq_def]
  by_cases hs : check_strong_completion_indicators text ≠ []
  · rw [if_pos hs, if_pos hs]
  · rw [if_neg hs, if_neg hs]
    rcases task_type with _ | tt
    · by_cases hic : si.is_complete = true <;>
      by_cases hv : (validate_llm_completion text si).valid = true <;>
      by_cases hw : check_weak_completion_indicators text ≠ [] <;>
      rcases hstart : st.completion_start_time with _ | t0 <;>
      first
        | (simp [hic, hv, hw, hstart, confirm_weak_completion,
             check_static_screen_completion]
           done)
        | (by_cases hd : now - t0 ≥ COMPLETION_CONFIRMATION_DELAY <;>
           simp [hic, hv, hw, hstart, hd, confirm_weak_completion,
             check_static_screen_completion])
    · by_cases hTa : tt ≠ "" <;>
      by_cases hTb : (TASK_COMPLETION_PATTERNS.lookup tt).isSome = true <;>
      by_cases hT2 : check_task_specific_completion text tt ≠ [] <;>
      by_cases hic : si.is_complete = true <;>
      by_cases hv : (validate_llm_completion text si).valid = true <;>
      by_cases hw : check_weak_completion_indicators text ≠ [] <;>
      rcases hstart : st.completion_start_time with _ | t0 <;>
      first
        | (simp [hTa, hTb, hT2, hic, hv, hw, hstart, confirm_weak_completion,
             check_static_screen_completion]
           done)
        | (by_cases hd : now - t0 ≥ COMPLETION_CONFIRMATION_DELAY <;>
           simp [hTa, hTb, hT2, hic, hv, hw, hstart, hd,
             confirm_weak_completion, check_static_screen_completion])

/-! ## Claim C4 -/

/-- Claim C4 is violated by the monitoring pipeline: for the command
"install dependencies" with a raw classifier report carrying the status
text "Installing packages... (esc to interrupt)" and a mistaken
`is_complete = true`, the per-tick decision still emits a completion
notification with `is_complete = true`.  The arbitration validates the
verdict against the always-empty extracted screenshot text, where the
interrupt marker is never seen, and the deterministic override runs only
after the status text has been overwritten with
"Task completed (llm_validated)", so it cannot see the marker either. -/
theorem install_interrupt_completion_sent :
    strContains
      (lowerStr "Installing packages... (esc to interrupt)")
      ESC_INTERRUPT_PATTERN = true ∧
    (monitor_decision (fun _ => "install") "install dependencies"
        { status := "Installing packages... (esc to interrupt)",
          needs_input := false, is_complete := true, question := none,
          screenshots_match := false }
        "hash0" completionInit ssdInit 0 false false false).sent_completion
      = true ∧
    (monitor_decision (fun _ => "install") "install dependencies"
        { status := "Installing packages... (esc to interrupt)",
          needs_input := false, is_complete := true, question := none,
          screenshots_match := false }
        "hash0" completionInit ssdInit 0 false false
        false).status_final.is_complete = true ∧
    (monitor_decision (fun _ => "install") "install dependencies"
        { status := "Installing packages... (esc to interrupt)",
          needs_input := false, is_complete := true, question := none,
          screenshots_match := false }
        "hash0" completionInit ssdInit 0 false false
        false).status_final.status = "Task completed (llm_validated)" := by
  refine ⟨by decide, ?_, ?_, ?_⟩ <;> rfl

/-! ## Claim C9 -/

/-- A tick that emits a completion notification also exits the loop. -/
theorem monitor_step_emit_exits (calcSim : String → String → ℚ × String)
    (st : LoopState) (i : TickInput)
    (h : (monitor_step calcSim st i).2.1 = true) :
    (monitor_step calcSim st i).2.2 = true := by
  unfold monitor_step at h ⊢
  split_ifs at h ⊢ <;> try simp_all
  split at h <;> simp_all

/-- Claim C9: over any sequence of ticks, one monitoring session emits at
most one completion notification; the first tick whose verdict is complete
(observed unpaused, within the timeout, on a captured sample, before any
completion has been sent) marks completion sent, clears the question
tracker and both waiting flags, emits the single notification and exits
the loop, so no later tick of the session can resend. -/
theorem monitor_completion_once (calcSim : String → String → ℚ × String)
    (st : LoopState) (inputs : List TickInput) :
    monitor_run calcSim st inputs ≤ 1 ∧
    (∀ i : TickInput, i.paused = false → i.elapsed ≤ MAX_WAIT_TIMEOUT →
      i.checks = true → i.captured = true → i.verdict_complete = true →
      st.process_complete = false → st.completion_sent = false →
      monitor_step calcSim st i =
        ({ process_complete := true, completion_sent := true,
           waiting_for_input := false, last_was_waiting := false,
           qd := clear_last_question st.qd }, true, true)) := by
  constructor
  · induction inputs generalizing st with
    | nil => simp [monitor_run]
    | cons i rest ih =>
      rw [monitor_run]
      by_cases hpc : st.process_complete = true
      · simp [hpc]
      · rw [if_neg hpc]
        by_cases he : (monitor_step calcSim st i).2.1 = true
        · have hex := monitor_step_emit_exits calcSim st i he
          simp [he, hex]
        · by_cases hx : (monitor_step calcSim st i).2.2 = true
          · simp [he, hx]
          · simpa [he, hx] using ih (monitor_step calcSim st i).1
  · intro i hp he hc hcap hv hpc hcs
    unfold monitor_step
    rw [if_neg (by simp [hp])]
    rw [if_neg (not_lt.mpr he)]
    rw [if_neg (by simp [hc])]
    rw [if_neg (by simp [hcap])]
    rw [if_pos hv]
    rw [if_pos (by simp [hp, hpc, hcs])]

/-- A concrete tick with a complete verdict, for the C9 application. -/
def tickCompleteOne : TickInput :=
  { paused := false, elapsed := 1, checks := true, captured := true,
    verdict_complete := true, is_question := false, question_text := "",
    confidence := 0, qtype := "", now := 1 }

/-- Concrete application of C9 on a one-tick session whose verdict is
complete. -/
theorem monitor_completion_once_witness :
    monitor_run calcSimZero (freshSession qdInit) [tickCompleteOne] ≤ 1 ∧
    monitor_step calcSimZero (freshSession qdInit) tickCompleteOne =
      ({ process_complete := true, completion_sent := true,
         waiting_for_input := false, last_was_waiting := false,
         qd := clear_last_question (freshSession qdInit).qd }, true, true) :=
  ⟨(monitor_completion_once calcSimZero (freshSession qdInit) [tickCompleteOne]).1,
   (monitor_completion_once calcSimZero (freshSession qdInit)
       [tickCompleteOne]).2 tickCompleteOne
     rfl (by norm_num [tickCompleteOne, MAX_WAIT_TIMEOUT]) rfl rfl rfl rfl rfl⟩
